import Mathlib

/-!
Verification of the PixelWar server core (src/server.js, canonical variant,
lines 1-270) against its natural-language specification.

Modelling conventions, chosen to mirror the JavaScript source exactly:

* JavaScript numbers are modelled as rationals (`ℚ`).  All numeric literals
  of the source (`0.01`, `0.05`, `3.14`, `0.1`, ...) are carried over as the
  exact rationals the source text denotes.
* `Math.cos` / `Math.sin` are uninterpreted parameters `rcos rsin : ℚ → ℚ`:
  none of the verified properties depends on the value of the trigonometric
  functions, only on how the source combines them.
* `Math.random()` results are supplied as an explicit oracle `rs : ℕ → ℚ`,
  `rs k` being the value of the k-th `Math.random()` call of the procedure
  being modelled, in source evaluation order.
* `Math.floor(a / BLOCK_SIZE)` is `Rat.floor (a / BLOCK_SIZE)`; `Rat.floor`
  is the mathematical floor on `ℚ` (theorem `ratFloor_eq_intFloor` below).
* `Math.hypot(dx, dy) < 30` is rendered as `dx * dx + dy * dy < 900`, which
  is equivalent over the reals and exact over `ℚ`.
* JavaScript objects used as string-keyed maps (`room.players`, `db.users`)
  are association lists in insertion order; `Object.values` is the list of
  second components, which matches the JS insertion-order semantics for
  string keys.
* `String.prototype.startsWith` is modelled on the character lists of the
  strings (`strStartsWith`).
-/

namespace PixelWar

/-- Bridge: `Rat.floor` (used computably throughout) is the floor on `ℚ`. -/
theorem ratFloor_eq_intFloor (q : ℚ) : Rat.floor q = ⌊q⌋ :=
  (Rat.floor_def' q).trans Rat.floor_def.symm

/-- server.js line 64: `const BLOCK_SIZE = 64;` -/
def BLOCK_SIZE : ℚ := 64

/-- server.js lines 65-77: the fixed world map, 11 rows of 24 cells,
`1` = wall, `0` = open. -/
def WORLD_MAP : List (List Nat) :=
  [[1,1,1,1,1,1,1,1,1,1,1,1,1,1,1,1,1,1,1,1,1,1,1,1],
   [1,0,0,0,0,0,1,0,0,0,0,0,0,0,0,0,0,0,0,0,0,0,0,1],
   [1,0,0,0,0,0,1,0,0,0,0,0,0,0,0,0,0,0,0,0,0,0,0,1],
   [1,0,0,0,0,0,0,0,0,0,0,0,0,0,0,0,0,0,0,0,0,0,0,1],
   [1,0,0,1,1,1,1,0,0,0,0,0,0,0,0,1,0,1,0,1,0,0,0,1],
   [1,0,0,1,0,0,0,0,0,0,0,0,0,0,0,1,0,0,0,0,0,0,0,1],
   [1,0,0,1,0,0,0,0,0,0,0,0,0,0,0,1,0,0,0,0,0,0,0,1],
   [1,0,0,0,0,0,0,0,0,1,1,0,1,1,0,0,0,0,0,0,0,0,0,1],
   [1,0,1,1,0,0,0,0,0,1,0,0,0,1,0,0,0,0,0,0,0,0,0,1],
   [1,0,0,0,0,0,0,0,0,1,1,0,1,1,0,0,0,0,0,0,0,0,0,1],
   [1,1,1,1,1,1,1,1,1,1,1,1,1,1,1,1,1,1,1,1,1,1,1,1]]

/-- JS array indexing `WORLD_MAP[gy]`: `undefined` (here `none`) for a
negative or too large index. -/
def rowAt (gy : ℤ) : Option (List Nat) :=
  if gy < 0 then none else WORLD_MAP.get? gy.toNat

/-- JS indexing `WORLD_MAP[gy][gx]`: `none` when the row is missing or the
column index falls outside the row. -/
def cellAt (gy gx : ℤ) : Option Nat :=
  match rowAt gy with
  | none => none
  | some row => if gx < 0 then none else row.get? gx.toNat

/-- `Math.floor(c / BLOCK_SIZE)`: world coordinate to grid index. -/
def gridOf (c : ℚ) : ℤ := Rat.floor (c / BLOCK_SIZE)

/-- One entity record (player or bot), the unified shape of
`room.players[id]` (server.js lines 114-124) and the bot records
(lines 86-95).  `fireTimer` is only meaningful for bots. -/
structure Entity where
  id : String
  username : String
  x : ℚ
  y : ℚ
  angle : ℚ
  hp : ℤ
  kills : ℤ
  deaths : ℤ
  isBot : Bool
  fireTimer : ℤ
deriving Repr, DecidableEq, Inhabited

/-- One projectile (server.js lines 151-154 and 201). -/
structure Bullet where
  x : ℚ
  y : ℚ
  angle : ℚ
  owner : String
  speed : ℚ
  life : ℤ
  damage : ℤ
deriving Repr, DecidableEq, Inhabited

/-- `room.players`: a string-keyed map in insertion order. -/
abbrev PlayersMap := List (String × Entity)

/-- One record of `db.users` (server.js line 48). -/
structure UserRec where
  password : String
  kills : ℤ
  deaths : ℤ
deriving Repr, DecidableEq, Inhabited

/-- The persisted user-record store `db.users`. -/
abbrev Db := List (String × UserRec)

/-- The payload of a client `input` message (server.js lines 128-146). -/
structure InputData where
  w : Bool
  s : Bool
  angle : ℚ
deriving Repr, DecidableEq, Inhabited

/-- A `died` notification (server.js line 240). -/
structure DiedEvent where
  victim : String
  killer : String
deriving Repr, DecidableEq, Inhabited

/-- `String.prototype.startsWith`, on character lists. -/
def strStartsWith (s p : String) : Bool := p.data.isPrefixOf s.data

/-- Index of the first list element satisfying `p`; models a JS
`for ... of` loop that acts on the first match and breaks. -/
def findFirst {α : Type} (p : α → Bool) : List α → Option ℕ
  | [] => none
  | a :: as => if p a then some 0 else (findFirst p as).map (· + 1)

/-- Replace the element at index `i` by `f` of it (in-place JS object
mutation seen through an immutable list). -/
def modifyIdx {α : Type} (f : α → α) : ℕ → List α → List α
  | _, [] => []
  | 0, a :: as => f a :: as
  | n + 1, a :: as => a :: modifyIdx f n as

/-- The x-displacement of an `input` message: `moveSpeed = 5`, forward on
`w`, backward on `s`, scaled by the cosine of the (already updated) angle. -/
def inputDx (rcos : ℚ → ℚ) (d : InputData) : ℚ :=
  (if d.w then rcos d.angle * 5 else 0) - (if d.s then rcos d.angle * 5 else 0)

/-- The y-displacement of an `input` message: `moveSpeed = 5`, forward on
`w`, backward on `s`, scaled by the sine of the (already updated) angle. -/
def inputDy (rsin : ℚ → ℚ) (d : InputData) : ℚ :=
  (if d.w then rsin d.angle * 5 else 0) - (if d.s then rsin d.angle * 5 else 0)

/-- server.js lines 128-146, the `input` handler body for an existing
player `p`: dead players are ignored; otherwise the angle is taken from
the message, a displacement is derived from the `w`/`s` keys at speed 5
scaled by cos/sin of the updated angle, and the move commits only when
`WORLD_MAP[floor(nextY/64)][floor(nextX/64)] === 0`. -/
def applyInput (rcos rsin : ℚ → ℚ) (p : Entity) (d : InputData) : Entity :=
  if p.hp ≤ 0 then p
  else
    let nextX := p.x + inputDx rcos d
    let nextY := p.y + inputDy rsin d
    if cellAt (gridOf nextY) (gridOf nextX) = some 0 then
      { p with angle := d.angle, x := nextX, y := nextY }
    else
      { p with angle := d.angle }

/-- server.js lines 148-155, the `shoot` handler body for an existing
player `p` (whose `id` is the socket id): dead players are ignored,
otherwise a bullet with the human profile (speed 20, life 50, damage 10)
is appended. -/
def fire (p : Entity) (bullets : List Bullet) : List Bullet :=
  if p.hp ≤ 0 then bullets
  else bullets ++ [{ x := p.x, y := p.y, angle := p.angle, owner := p.id,
                     speed := 20, life := 50, damage := 10 }]

/-- The world state the `disconnect` handler touches. -/
structure ServerState where
  players : PlayersMap
  db : Db
deriving Repr, DecidableEq, Inhabited

/-- server.js lines 157-168, the `disconnect` handler (the `leave` path of
the spec): if an entity exists for the connection its kill/death counters
are flushed to `db.users[p.username]` when that record exists, and the
entity is removed; otherwise nothing happens. -/
def leave (s : ServerState) (sid : String) : ServerState :=
  match s.players.lookup sid with
  | none => s
  | some p =>
      let db1 :=
        if (s.db.lookup p.username).isSome then
          s.db.map (fun kv =>
            if kv.1 = p.username then
              (kv.1, { kv.2 with kills := p.kills, deaths := p.deaths })
            else kv)
        else s.db
      { players := s.players.filter (fun kv => !(kv.1 == sid)), db := db1 }

/-- Map-update helper used by the respawn callback. -/
def updateP (m : PlayersMap) (k : String) (f : Entity → Entity) : PlayersMap :=
  m.map (fun kv => if kv.1 = k then (kv.1, f kv.2) else kv)

/-- server.js lines 241-247, the body of the human respawn `setTimeout`
callback for victim id `vid`: if the player still exists, reset hp to 150
and relocate to `(2 * BLOCK_SIZE, 2 * BLOCK_SIZE)`. -/
def respawnHuman (players : PlayersMap) (vid : String) : PlayersMap :=
  if (players.lookup vid).isSome then
    updateP players vid (fun p => { p with hp := 150, x := 2 * BLOCK_SIZE, y := 2 * BLOCK_SIZE })
  else players

/-- server.js lines 193-197: a living bot steps 2 units along `angle1`
when the destination cell is open, and otherwise stays put while turning
its angle by 3.14. -/
def botTryMove (rcos rsin : ℚ → ℚ) (bot : Entity) (angle1 : ℚ) : Entity :=
  if cellAt (gridOf (bot.y + rsin angle1 * 2)) (gridOf (bot.x + rcos angle1 * 2)) = some 0 then
    { bot with angle := angle1, x := bot.x + rcos angle1 * 2, y := bot.y + rsin angle1 * 2 }
  else
    { bot with angle := angle1 + 314/100 }

/-- server.js line 192 plus the move: with probability 0.05 the bot's angle
first receives a jitter of `Math.random() - 0.5` (consuming a second
random), then the move of `botTryMove` runs; the second component is the
index of the next unconsumed random. -/
def botMovePhase (rcos rsin : ℚ → ℚ) (rs : ℕ → ℚ) (bot : Entity) : Entity × ℕ :=
  if rs 0 < 5/100 then (botTryMove rcos rsin bot (bot.angle + (rs 1 - 1/2)), 2)
  else (botTryMove rcos rsin bot bot.angle, 1)

/-- server.js lines 182-205, the per-bot AI body.  `rs k` is the k-th
`Math.random()` of this bot's update.  A dead bot only runs the
probabilistic respawn check; a living bot runs the move phase and then
fires a bot-profile bullet when its fire timer has run out, finally
decrementing the timer. -/
def botUpdate (rcos rsin : ℚ → ℚ) (rs : ℕ → ℚ) (bot : Entity) (bullets : List Bullet) :
    Entity × List Bullet :=
  if bot.hp ≤ 0 then
    if rs 0 < 1/100 then
      ({ bot with hp := 100,
                  x := (rs 1 * 10 + 2) * BLOCK_SIZE,
                  y := (rs 2 * 10 + 2) * BLOCK_SIZE }, bullets)
    else (bot, bullets)
  else
    if (botMovePhase rcos rsin rs bot).1.fireTimer ≤ 0 then
      ({ (botMovePhase rcos rsin rs bot).1 with
           fireTimer :=
             Rat.floor (rs ((botMovePhase rcos rsin rs bot).2 + 1) * (138 - 36) + 36) - 1 },
       bullets ++ [{ x := (botMovePhase rcos rsin rs bot).1.x,
                     y := (botMovePhase rcos rsin rs bot).1.y,
                     angle := (botMovePhase rcos rsin rs bot).1.angle
                       + (rs (botMovePhase rcos rsin rs bot).2 - 1/2) * (1/10),
                     owner := (botMovePhase rcos rsin rs bot).1.id,
                     speed := 15, life := 60, damage := 30 }])
    else
      ({ (botMovePhase rcos rsin rs bot).1 with
           fireTimer := (botMovePhase rcos rsin rs bot).1.fireTimer - 1 }, bullets)

/-- server.js lines 210-212: advance a bullet by its velocity and decrement
its lifetime. -/
def bulletMove (rcos rsin : ℚ → ℚ) (b : Bullet) : Bullet :=
  { b with x := b.x + rcos b.angle * b.speed,
           y := b.y + rsin b.angle * b.speed,
           life := b.life - 1 }

/-- server.js line 217, the removal condition
`!WORLD_MAP[gy] || WORLD_MAP[gy][gx] === 1 || b.life <= 0`.
Note that a row index out of bounds removes the bullet, but a column index
out of bounds does not (`undefined === 1` is false in JS). -/
def bulletRemovedByWorld (b : Bullet) : Bool :=
  (rowAt (gridOf b.y)).isNone
    || (cellAt (gridOf b.y) (gridOf b.x) == some 1)
    || decide (b.life ≤ 0)

/-- server.js lines 224-225, the per-entity hit test: skip dead entities
and the owner, hit when `Math.hypot(ex - bx, ey - by) < 30`. -/
def hitCond (owner : String) (bx bY : ℚ) (e : Entity) : Bool :=
  decide (0 < e.hp) && (e.id != owner)
    && decide ((e.x - bx) * (e.x - bx) + (e.y - bY) * (e.y - bY) < 900)

/-- server.js lines 230-237: resolve the killer name and apply the kill
counter.  `keys` are the player map keys (aligned with the players prefix
of `es`), `es1` the combined entity array after the victim update.
Bullets owned by an id starting with `"bot"` are attributed to the bot of
that id (name `"NPC"` if absent, no counter); otherwise a present player
gets its kill counter incremented, and an absent owner yields
`"Unknown"`. -/
def killerUpdate (owner : String) (keys : List String) (es1 : List Entity) :
    String × List Entity :=
  if strStartsWith owner "bot" then
    ((match (es1.drop keys.length).find? (fun x => x.id == owner) with
      | some bt => bt.username
      | none => "NPC"), es1)
  else
    match findFirst (fun k => k == owner) keys with
    | some j => ((es1.getD j default).username,
                 modifyIdx (fun e => { e with kills := e.kills + 1 }) j es1)
    | none => ("Unknown", es1)

/-- server.js lines 226-248, the effect of a hit on entity index `i` of the
combined array `es` (`[...Object.values(players), ...bots]`): subtract the
bullet's damage; on a kill also increment the victim's death counter,
resolve the killer, and emit a `died` event for a human victim. -/
def damageAt (b : Bullet) (keys : List String) (es : List Entity) (i : ℕ) :
    List Entity × List DiedEvent :=
  let victim := es.getD i default
  let victim1 := { victim with hp := victim.hp - b.damage }
  if victim1.hp ≤ 0 then
    let victim2 := { victim1 with deaths := victim1.deaths + 1 }
    let es1 := modifyIdx (fun _ => victim2) i es
    let pk := killerUpdate b.owner keys es1
    (pk.2, if victim2.isBot then [] else [⟨victim2.id, pk.1⟩])
  else
    (modifyIdx (fun _ => victim1) i es, [])

/-- Result of processing one bullet in the tick. -/
structure BulletOutcome where
  entities : List Entity
  survivor : Option Bullet
  events : List DiedEvent
deriving Repr, DecidableEq, Inhabited

/-- server.js lines 208-253, the processing of one bullet within the game
loop: move and age the bullet; remove it on the world condition with no
further effect; otherwise damage the first entity in radius (if any) and
remove the bullet, or keep the moved bullet when nothing is hit. -/
def bulletStep (rcos rsin : ℚ → ℚ) (keys : List String) (es : List Entity)
    (b0 : Bullet) : BulletOutcome :=
  let b := bulletMove rcos rsin b0
  if bulletRemovedByWorld b then ⟨es, none, []⟩
  else
    match findFirst (hitCond b.owner b.x b.y) es with
    | none => ⟨es, some b, []⟩
    | some i =>
        let de := damageAt b keys es i
        ⟨de.1, none, de.2⟩

/-- The bot phase of the game loop (`room.bots.forEach`): each bot is
updated in order, `rss n` being the random oracle of the n-th bot. -/
def botsPass (rcos rsin : ℚ → ℚ) : (ℕ → ℕ → ℚ) → List Entity → List Bullet →
    List Entity × List Bullet
  | _, [], bs => ([], bs)
  | rss, bot :: rest, bs =>
      let rb := botUpdate rcos rsin (rss 0) bot bs
      let rr := botsPass rcos rsin (fun n => rss (n + 1)) rest rb.2
      (rb.1 :: rr.1, rr.2)

/-- The bullet phase of the game loop: the JS `for` loop runs from the last
index down to 0 and splices removed bullets, so the last list element is
processed first and earlier bullets observe the entity mutations of later
ones. -/
def bulletsPass (rcos rsin : ℚ → ℚ) (keys : List String) :
    List Entity → List Bullet → List Entity × List Bullet × List DiedEvent
  | es, [] => (es, [], [])
  | es, b :: rest =>
      let rr := bulletsPass rcos rsin keys es rest
      let ob := bulletStep rcos rsin keys rr.1 b
      (ob.entities,
       (match ob.survivor with
        | some b1 => b1 :: rr.2.1
        | none => rr.2.1),
       rr.2.2 ++ ob.events)

/-- One room's state inside the game loop. -/
structure RoomState where
  players : PlayersMap
  bots : List Entity
  bullets : List Bullet
deriving Repr, DecidableEq, Inhabited

/-- server.js lines 177-256, one game-loop iteration for one room: the bot
phase, then the bullet phase over
`allEntities = [...Object.values(room.players), ...room.bots]`, then the
state broadcast (the returned room is the broadcast snapshot). -/
def tickRoom (rcos rsin : ℚ → ℚ) (rss : ℕ → ℕ → ℚ) (room : RoomState) :
    RoomState × List DiedEvent :=
  let bb := botsPass rcos rsin rss room.bots room.bullets
  let keys := room.players.map Prod.fst
  let es := room.players.map Prod.snd ++ bb.1
  let r := bulletsPass rcos rsin keys es bb.2
  (⟨keys.zip (r.1.take keys.length), r.1.drop keys.length, r.2.1⟩, r.2.2)

/-- The game loop together with the persisted user store: the loop body
(server.js lines 177-256) contains no `readDb`/`writeDb` call, so the
store is threaded through a tick unchanged; it is only accessed by the
auth routes, the `join` handler and the `disconnect` handler. -/
def tickRoomDb (rcos rsin : ℚ → ℚ) (rss : ℕ → ℕ → ℚ) (room : RoomState) (db : Db) :
    (RoomState × Db) × List DiedEvent :=
  let r := tickRoom rcos rsin rss room
  ((r.1, db), r.2)

/-! ### Auxiliary lemmas about the list combinators -/

theorem findFirst_some_getD {α : Type} (p : α → Bool) (l : List α) (i : ℕ) (d : α)
    (h : findFirst p l = some i) : p (l.getD i d) = true := by
  induction l generalizing i with
  | nil => simp [findFirst] at h
  | cons x xs ih =>
      by_cases hx : p x = true
      · simp [findFirst, hx] at h
        subst h
        simpa using hx
      · simp [findFirst, hx, Option.map_eq_some'] at h
        obtain ⟨j, hj, rfl⟩ := h
        simpa using ih j hj

theorem findFirst_some_lt {α : Type} (p : α → Bool) (l : List α) (i : ℕ)
    (h : findFirst p l = some i) : i < l.length := by
  induction l generalizing i with
  | nil => simp [findFirst] at h
  | cons x xs ih =>
      by_cases hx : p x = true
      · simp [findFirst, hx] at h
        subst h
        simp
      · simp [findFirst, hx, Option.map_eq_some'] at h
        obtain ⟨j, hj, rfl⟩ := h
        simpa using ih j hj

theorem findFirst_some_before {α : Type} (p : α → Bool) (l : List α) (i j : ℕ) (d : α)
    (h : findFirst p l = some i) (hj : j < i) : p (l.getD j d) = false := by
  induction l generalizing i j with
  | nil => simp [findFirst] at h
  | cons x xs ih =>
      by_cases hx : p x = true
      · simp [findFirst, hx] at h
        omega
      · simp [findFirst, hx, Option.map_eq_some'] at h
        obtain ⟨i', hi', rfl⟩ := h
        cases j with
        | zero => simpa using eq_false_of_ne_true hx
        | succ j' => simpa using ih i' j' hi' (by omega)

theorem modifyIdx_getD {α : Type} (f : α → α) (i j : ℕ) (l : List α) (d : α) :
    (modifyIdx f i l).getD j d =
      if j = i ∧ j < l.length then f (l.getD j d) else l.getD j d := by
  induction l generalizing i j with
  | nil => cases i <;> simp [modifyIdx]
  | cons x xs ih =>
      cases i with
      | zero =>
          cases j with
          | zero => simp [modifyIdx]
          | succ j' => simp [modifyIdx]
      | succ i' =>
          cases j with
          | zero => simp [modifyIdx]
          | succ j' =>
              simp only [modifyIdx, List.getD_cons_succ, List.length_cons, ih]
              by_cases hji : j' = i' ∧ j' < xs.length
              · rw [if_pos hji, if_pos ⟨by omega, by omega⟩]
              · rw [if_neg hji, if_neg (by omega)]

theorem modifyIdx_length {α : Type} (f : α → α) (i : ℕ) (l : List α) :
    (modifyIdx f i l).length = l.length := by
  induction l generalizing i with
  | nil => cases i <;> rfl
  | cons x xs ih =>
      cases i with
      | zero => simp [modifyIdx]
      | succ i' => simp [modifyIdx, ih]

theorem mem_modifyIdx {α : Type} (f : α → α) (i : ℕ) (l : List α) (a : α)
    (h : a ∈ modifyIdx f i l) : a ∈ l ∨ ∃ b ∈ l, a = f b := by
  induction l generalizing i with
  | nil => cases i <;> simp [modifyIdx] at h
  | cons x xs ih =>
      cases i with
      | zero =>
          rcases List.mem_cons.mp h with h | h
          · exact Or.inr ⟨x, List.mem_cons_self x xs, h⟩
          · exact Or.inl (List.mem_cons_of_mem x h)
      | succ i' =>
          rcases List.mem_cons.mp h with h | h
          · exact Or.inl (by rw [h]; exact List.mem_cons_self x xs)
          · rcases ih i' h with h' | ⟨b, hb, hab⟩
            · exact Or.inl (List.mem_cons_of_mem x h')
            · exact Or.inr ⟨b, List.mem_cons_of_mem x hb, hab⟩

theorem getD_mem {α : Type} (l : List α) (i : ℕ) (d : α) (h : i < l.length) :
    l.getD i d ∈ l := by
  induction l generalizing i with
  | nil => simp at h
  | cons x xs ih =>
      cases i with
      | zero => simp
      | succ i' =>
          simp only [List.getD_cons_succ]
          exact List.mem_cons_of_mem x (ih i' (by simp at h; exact h))

theorem getD_append_length {α : Type} (l : List α) (a d : α) :
    (l ++ [a]).getD l.length d = a := by
  induction l with
  | nil => rfl
  | cons x xs ih => simp [ih]

theorem lookup_filter_out {β : Type} (l : List (String × β)) (k : String) :
    (l.filter (fun kv => !(kv.1 == k))).lookup k = none := by
  induction l with
  | nil => rfl
  | cons kv rest ih =>
      obtain ⟨k1, v1⟩ := kv
      rw [List.filter_cons]
      by_cases hk : k1 = k
      · rw [if_neg (by simpa using hk)]
        exact ih
      · rw [if_pos (by simpa using hk)]
        have hne : (k == k1) = false := by simpa using Ne.symm hk
        simp [List.lookup, hne, ih]

theorem updateP_lookup_self (m : PlayersMap) (k : String) (f : Entity → Entity) :
    (updateP m k f).lookup k = (m.lookup k).map f := by
  induction m with
  | nil => rfl
  | cons kv rest ih =>
      obtain ⟨k1, v1⟩ := kv
      by_cases hk : k1 = k
      · subst hk
        have hstep : updateP ((k1, v1) :: rest) k1 f = (k1, f v1) :: updateP rest k1 f := by
          simp [updateP]
        rw [hstep]
        simp [List.lookup]
      · have hne : (k == k1) = false := by simpa using Ne.symm hk
        simp only [updateP, List.map_cons, if_neg hk]
        simp only [List.lookup, hne]
        simpa [updateP] using ih

/-! ### Structural lemmas about bullet resolution -/

theorem killerUpdate_getD_proj {β : Type} (g : Entity → β)
    (hg : ∀ e : Entity, g { e with kills := e.kills + 1 } = g e)
    (o : String) (keys : List String) (es : List Entity) (j : ℕ) (d : Entity) :
    g (((killerUpdate o keys es).2).getD j d) = g (es.getD j d) := by
  unfold killerUpdate
  by_cases hb : strStartsWith o "bot" = true
  · simp [hb]
  · rw [if_neg hb]
    cases hf : findFirst (fun k => k == o) keys with
    | none => rfl
    | some j' =>
        simp only [modifyIdx_getD]
        by_cases hj : j = j' ∧ j < es.length
        · rw [if_pos hj, hg]
        · rw [if_neg hj]

theorem hitCond_hp {owner : String} {bx bY : ℚ} {e : Entity}
    (h : hitCond owner bx bY e = true) : 0 < e.hp := by
  simp only [hitCond, Bool.and_eq_true, decide_eq_true_eq] at h
  exact h.1.1

theorem hitCond_id {owner : String} {bx bY : ℚ} {e : Entity}
    (h : hitCond owner bx bY e = true) : e.id ≠ owner := by
  simp only [hitCond, Bool.and_eq_true, bne_iff_ne, decide_eq_true_eq] at h
  exact h.1.2

theorem bulletMove_owner (rcos rsin : ℚ → ℚ) (b : Bullet) :
    (bulletMove rcos rsin b).owner = b.owner := rfl

theorem bulletMove_damage (rcos rsin : ℚ → ℚ) (b : Bullet) :
    (bulletMove rcos rsin b).damage = b.damage := rfl

theorem damageAt_getD_hp_ne (b : Bullet) (keys : List String) (es : List Entity)
    (i j : ℕ) (hne : j ≠ i) :
    (((damageAt b keys es i).1).getD j default).hp = (es.getD j default).hp := by
  unfold damageAt
  by_cases hl : (es.getD i default).hp - b.damage ≤ 0
  · simp only [if_pos hl]
    rw [killerUpdate_getD_proj Entity.hp (fun _ => rfl)]
    rw [modifyIdx_getD, if_neg (by omega)]
  · simp only [if_neg hl]
    rw [modifyIdx_getD, if_neg (by omega)]

theorem damageAt_getD_hp_eq (b : Bullet) (keys : List String) (es : List Entity)
    (i : ℕ) (hi : i < es.length) :
    (((damageAt b keys es i).1).getD i default).hp = (es.getD i default).hp - b.damage := by
  unfold damageAt
  by_cases hl : (es.getD i default).hp - b.damage ≤ 0
  · simp only [if_pos hl]
    rw [killerUpdate_getD_proj Entity.hp (fun _ => rfl)]
    rw [modifyIdx_getD, if_pos ⟨rfl, hi⟩]
  · simp only [if_neg hl]
    rw [modifyIdx_getD, if_pos ⟨rfl, hi⟩]

theorem bulletStep_hp_dead (rcos rsin : ℚ → ℚ) (keys : List String) (es : List Entity)
    (b0 : Bullet) (j : ℕ) (hdead : (es.getD j default).hp ≤ 0) :
    ((bulletStep rcos rsin keys es b0).entities.getD j default).hp
      = (es.getD j default).hp := by
  unfold bulletStep
  by_cases hrem : bulletRemovedByWorld (bulletMove rcos rsin b0) = true
  · simp [hrem]
  · rw [if_neg hrem]
    cases hf : findFirst (hitCond (bulletMove rcos rsin b0).owner
        (bulletMove rcos rsin b0).x (bulletMove rcos rsin b0).y) es with
    | none => rfl
    | some i =>
        have hhit := findFirst_some_getD _ es i default hf
        have hpos := hitCond_hp hhit
        have hne : j ≠ i := by
          intro hji
          rw [hji] at hdead
          omega
        simpa using damageAt_getD_hp_ne _ keys es i j hne


theorem botTryMove_fireTimer (rcos rsin : ℚ → ℚ) (bot : Entity) (a1 : ℚ) :
    (botTryMove rcos rsin bot a1).fireTimer = bot.fireTimer := by
  unfold botTryMove
  split_ifs <;> rfl

theorem botTryMove_id (rcos rsin : ℚ → ℚ) (bot : Entity) (a1 : ℚ) :
    (botTryMove rcos rsin bot a1).id = bot.id := by
  unfold botTryMove
  split_ifs <;> rfl

theorem botMovePhase_fireTimer (rcos rsin : ℚ → ℚ) (rs : ℕ → ℚ) (bot : Entity) :
    ((botMovePhase rcos rsin rs bot).1).fireTimer = bot.fireTimer := by
  unfold botMovePhase
  split_ifs <;> simp [botTryMove_fireTimer]

/-! ### Claim theorems -/

/-- Claim C1 (amended): for a projectile processed by the tick, after the
move and lifetime decrement, the code's removal condition is exactly
`row OOB ∨ cell = 1 ∨ life ≤ 0` (an out-of-bounds column is NOT part of
it); when it holds the projectile is removed with no entity changed; only
otherwise is the distance check run, and then the first living non-owner
entity within the hit radius loses exactly the projectile's damage, every
other entity keeps its hp, the projectile is removed, and no earlier
entity satisfied the hit condition. -/
theorem bullet_removal_priority_and_single_hit (rcos rsin : ℚ → ℚ) (keys : List String)
    (es : List Entity) (b0 : Bullet) :
    (bulletRemovedByWorld (bulletMove rcos rsin b0) = true ↔
       (rowAt (gridOf (bulletMove rcos rsin b0).y) = none ∨
        cellAt (gridOf (bulletMove rcos rsin b0).y) (gridOf (bulletMove rcos rsin b0).x)
          = some 1 ∨
        (bulletMove rcos rsin b0).life ≤ 0)) ∧
    (bulletRemovedByWorld (bulletMove rcos rsin b0) = true →
       bulletStep rcos rsin keys es b0 = ⟨es, none, []⟩) ∧
    (bulletRemovedByWorld (bulletMove rcos rsin b0) = false →
       (findFirst (hitCond (bulletMove rcos rsin b0).owner (bulletMove rcos rsin b0).x
            (bulletMove rcos rsin b0).y) es = none →
         bulletStep rcos rsin keys es b0 = ⟨es, some (bulletMove rcos rsin b0), []⟩) ∧
       (∀ i, findFirst (hitCond (bulletMove rcos rsin b0).owner (bulletMove rcos rsin b0).x
            (bulletMove rcos rsin b0).y) es = some i →
         (bulletStep rcos rsin keys es b0).survivor = none ∧
         ((bulletStep rcos rsin keys es b0).entities.getD i default).hp
           = (es.getD i default).hp - b0.damage ∧
         (∀ j, j ≠ i →
           ((bulletStep rcos rsin keys es b0).entities.getD j default).hp
             = (es.getD j default).hp) ∧
         hitCond (bulletMove rcos rsin b0).owner (bulletMove rcos rsin b0).x
           (bulletMove rcos rsin b0).y (es.getD i default) = true ∧
         (∀ j, j < i →
           hitCond (bulletMove rcos rsin b0).owner (bulletMove rcos rsin b0).x
             (bulletMove rcos rsin b0).y (es.getD j default) = false))) := by
  refine ⟨?_, ?_, ?_⟩
  · simp [bulletRemovedByWorld, Option.isNone_iff_eq_none, or_assoc]
  · intro hrem
    simp [bulletStep, hrem]
  · intro hrem
    constructor
    · intro hf
      simp [bulletStep, hrem, hf]
    · intro i hf
      refine ⟨?_, ?_, ?_, ?_, ?_⟩
      · simp [bulletStep, hrem, hf]
      · have hi := findFirst_some_lt _ es i hf
        have hd := damageAt_getD_hp_eq (bulletMove rcos rsin b0) keys es i hi
        simpa [bulletStep, hrem, hf] using hd
      · intro j hj
        have hd := damageAt_getD_hp_ne (bulletMove rcos rsin b0) keys es i j hj
        simpa [bulletStep, hrem, hf] using hd
      · exact findFirst_some_getD _ es i default hf
      · intro j hj
        exact findFirst_some_before _ es i j default hf hj

/-- Claim C3: for every living player and every input intent, the handler
computes a candidate displacement from the `w`/`s` keys at fixed speed
scaled by cos/sin of the updated angle, commits it exactly when the
destination cell is open in the world map, and otherwise leaves the
position unchanged (no partial movement); the angle is updated either
way. -/
theorem input_commits_only_into_open_cells (rcos rsin : ℚ → ℚ) (p : Entity) (d : InputData)
    (halive : 0 < p.hp) :
    (cellAt (gridOf (p.y + inputDy rsin d)) (gridOf (p.x + inputDx rcos d)) = some 0 →
      applyInput rcos rsin p d
        = { p with angle := d.angle, x := p.x + inputDx rcos d, y := p.y + inputDy rsin d }) ∧
    (cellAt (gridOf (p.y + inputDy rsin d)) (gridOf (p.x + inputDx rcos d)) ≠ some 0 →
      (applyInput rcos rsin p d).x = p.x ∧ (applyInput rcos rsin p d).y = p.y ∧
        (applyInput rcos rsin p d).angle = d.angle) := by
  have hnd : ¬ p.hp ≤ 0 := not_le.2 halive
  exact ⟨fun h => by simp [applyInput, hnd, h], fun h => by simp [applyInput, hnd, h]⟩

/-- Claim C2: a dead entity (hp ≤ 0) is inert: an input intent changes
nothing, a fire request appends no projectile, the bot AI neither moves it
nor fires for it (when its respawn roll fails), and the bullet collision
pass never changes its hp. -/
theorem dead_entities_inert (rcos rsin : ℚ → ℚ) (p : Entity) (d : InputData)
    (bullets : List Bullet) (rs : ℕ → ℚ) (bot : Entity) (keys : List String)
    (es : List Entity) (b0 : Bullet) (j : ℕ) :
    (p.hp ≤ 0 → applyInput rcos rsin p d = p) ∧
    (p.hp ≤ 0 → fire p bullets = bullets) ∧
    (bot.hp ≤ 0 → ¬ rs 0 < 1/100 → botUpdate rcos rsin rs bot bullets = (bot, bullets)) ∧
    ((es.getD j default).hp ≤ 0 →
      ((bulletStep rcos rsin keys es b0).entities.getD j default).hp
        = (es.getD j default).hp) :=
  ⟨fun h => by simp [applyInput, h],
   fun h => by simp [fire, h],
   fun h hr => by
     unfold botUpdate
     rw [if_pos h, if_neg hr],
   fun h => bulletStep_hp_dead rcos rsin keys es b0 j h⟩

/-- Claim C4: an entity whose id equals a projectile's owner id is never
damaged by that projectile: its hp is unchanged by the projectile's
collision resolution, regardless of distance. -/
theorem owner_never_damaged_by_own_bullet (rcos rsin : ℚ → ℚ) (keys : List String)
    (es : List Entity) (b0 : Bullet) (j : ℕ)
    (hown : (es.getD j default).id = b0.owner) :
    ((bulletStep rcos rsin keys es b0).entities.getD j default).hp
      = (es.getD j default).hp := by
  unfold bulletStep
  by_cases hrem : bulletRemovedByWorld (bulletMove rcos rsin b0) = true
  · simp [hrem]
  · rw [if_neg hrem]
    cases hf : findFirst (hitCond (bulletMove rcos rsin b0).owner
        (bulletMove rcos rsin b0).x (bulletMove rcos rsin b0).y) es with
    | none => rfl
    | some i =>
        have hhit := findFirst_some_getD _ es i default hf
        have hid := hitCond_id hhit
        have hne : j ≠ i := by
          intro hji
          rw [hji] at hown
          exact hid hown
        simpa using damageAt_getD_hp_ne _ keys es i j hne

/-- Claim C8: the disconnect (`leave`) path is idempotent: a second call
for the same connection, or a call for a connection with no entity, is a
no-op on the entity store and the user-record store. -/
theorem leave_idempotent (s : ServerState) (sid : String) :
    leave (leave s sid) sid = leave s sid ∧
    (s.players.lookup sid = none → leave s sid = s) := by
  have hnone : ∀ t : ServerState, t.players.lookup sid = none → leave t sid = t := by
    intro t ht
    unfold leave
    rw [ht]
  constructor
  · cases hl : s.players.lookup sid with
    | none =>
        rw [hnone s hl]
        exact hnone s hl
    | some p =>
        have h2 : (leave s sid).players.lookup sid = none := by
          unfold leave
          rw [hl]
          exact lookup_filter_out _ _
        exact hnone _ h2
  · exact hnone s

/-- Claim C9: a projectile fired by a living human player has damage 10,
speed 20 and lifetime 50; a projectile fired by a living bot whose fire
timer has run out has damage 30, speed 15 and lifetime 60; bot damage is
three times human damage. -/
theorem projectile_profiles_by_role (p : Entity) (bullets : List Bullet)
    (rcos rsin : ℚ → ℚ) (rs : ℕ → ℚ) (bot : Entity) (bbs : List Bullet)
    (hp : 0 < p.hp) (hbot : 0 < bot.hp) (ht : bot.fireTimer ≤ 0) :
    fire p bullets
      = bullets ++ [{ x := p.x, y := p.y, angle := p.angle, owner := p.id,
                      speed := 20, life := 50, damage := 10 }] ∧
    ((botUpdate rcos rsin rs bot bbs).2).length = bbs.length + 1 ∧
    (((botUpdate rcos rsin rs bot bbs).2).getD bbs.length default).speed = 15 ∧
    (((botUpdate rcos rsin rs bot bbs).2).getD bbs.length default).life = 60 ∧
    (((botUpdate rcos rsin rs bot bbs).2).getD bbs.length default).damage = 30 ∧
    (30 : ℤ) = 3 * 10 := by
  have hb : ¬ bot.hp ≤ 0 := not_le.2 hbot
  have ht1 : (botMovePhase rcos rsin rs bot).1.fireTimer ≤ 0 := by
    rw [botMovePhase_fireTimer]
    exact ht
  refine ⟨by simp [fire, not_le.2 hp], ?_⟩
  unfold botUpdate
  rw [if_neg hb, if_pos ht1]
  simp [getD_append_length]

theorem mem_of_mem_drop {α : Type} {a : α} :
    ∀ (n : ℕ) (l : List α), a ∈ l.drop n → a ∈ l
  | 0, _, h => h
  | n + 1, [], h => by simp at h
  | n + 1, x :: xs, h => List.mem_cons_of_mem x (mem_of_mem_drop n xs h)

theorem modifyIdx_const_proj {β : Type} (g : Entity → β) (es : List Entity) (i : ℕ)
    (v2 : Entity) (hv : g v2 = g (es.getD i default)) (j : ℕ) :
    g ((modifyIdx (fun _ => v2) i es).getD j default) = g (es.getD j default) := by
  rw [modifyIdx_getD]
  by_cases hc : j = i ∧ j < es.length
  · obtain ⟨rfl, hlen⟩ := hc
    rw [if_pos ⟨rfl, hlen⟩]
    simpa using hv
  · rw [if_neg hc]

theorem damageAt_lethal_entities (b : Bullet) (keys : List String) (es : List Entity)
    (i : ℕ) (hl : (es.getD i default).hp - b.damage ≤ 0) :
    (damageAt b keys es i).1
      = (killerUpdate b.owner keys
          (modifyIdx (fun _ => { es.getD i default with
              hp := (es.getD i default).hp - b.damage,
              deaths := (es.getD i default).deaths + 1 }) i es)).2 := by
  simp only [damageAt]
  rw [if_pos hl]

theorem damageAt_lethal_events (b : Bullet) (keys : List String) (es : List Entity)
    (i : ℕ) (hl : (es.getD i default).hp - b.damage ≤ 0) :
    (damageAt b keys es i).2
      = (if (es.getD i default).isBot then []
         else [⟨(es.getD i default).id,
               (killerUpdate b.owner keys
                 (modifyIdx (fun _ => { es.getD i default with
                     hp := (es.getD i default).hp - b.damage,
                     deaths := (es.getD i default).deaths + 1 }) i es)).1⟩]) := by
  simp only [damageAt]
  rw [if_pos hl]

theorem killerUpdate_getD_kills_hit (o : String) (keys : List String) (es1 : List Entity)
    (j : ℕ) (ho : strStartsWith o "bot" = false)
    (hk : findFirst (fun k => k == o) keys = some j) (hj : j < es1.length) :
    (((killerUpdate o keys es1).2).getD j default).kills = (es1.getD j default).kills + 1 := by
  unfold killerUpdate
  simp only [ho, Bool.false_eq_true, if_false, hk]
  rw [modifyIdx_getD, if_pos ⟨rfl, hj⟩]

theorem killerUpdate_unmatched (o : String) (keys : List String) (es1 : List Entity)
    (hfind : (es1.drop keys.length).find? (fun x => x.id == o) = none)
    (hkey : findFirst (fun k => k == o) keys = none) :
    killerUpdate o keys es1
      = ((if strStartsWith o "bot" then "NPC" else "Unknown"), es1) := by
  unfold killerUpdate
  by_cases hb : strStartsWith o "bot" = true
  · simp [hb, hfind]
  · simp [hb, hkey]

theorem drop_find?_id_none (es : List Entity) (i : ℕ) (v2 : Entity) (n : ℕ) (o : String)
    (hv : v2.id = (es.getD i default).id) (hi : i < es.length)
    (hno : ∀ e ∈ es, e.id ≠ o) :
    ((modifyIdx (fun _ => v2) i es).drop n).find? (fun x => x.id == o) = none := by
  rw [List.find?_eq_none]
  intro a ha
  have ha2 : a ∈ modifyIdx (fun _ => v2) i es := mem_of_mem_drop n _ ha
  rcases mem_modifyIdx _ i es a ha2 with h | ⟨b, _, hab⟩
  · simpa using hno a h
  · have hvo : v2.id ≠ o := by
      rw [hv]
      exact hno _ (getD_mem es i default hi)
    rw [hab]
    simpa using hvo

theorem bulletsPass_hp_dead (rcos rsin : ℚ → ℚ) (keys : List String) (es : List Entity)
    (bl : List Bullet) (j : ℕ) (h : (es.getD j default).hp ≤ 0) :
    (((bulletsPass rcos rsin keys es bl).1).getD j default).hp = (es.getD j default).hp := by
  induction bl with
  | nil => rfl
  | cons b rest ih =>
      have h2 : (((bulletsPass rcos rsin keys es rest).1).getD j default).hp ≤ 0 := by
        rw [ih]
        exact h
      have h3 := bulletStep_hp_dead rcos rsin keys _ b j h2
      simp only [bulletsPass]
      rw [h3, ih]

/-- Claim C5 (amended): stored hp is not clamped at zero and a dead entity
is not immediately respawned inside the tick: a dead entity's hp (negative
included) is unchanged by the whole bullet phase, and a dead bot whose
respawn roll fails is unchanged by the bot phase, so a negative hp
persists in broadcast snapshots beyond the killing tick until the delayed
human respawn or a successful bot respawn roll resets it. -/
theorem negative_hp_persists (rcos rsin : ℚ → ℚ) (rs : ℕ → ℚ) (bot : Entity)
    (bullets : List Bullet) (keys : List String) (es : List Entity)
    (bl : List Bullet) (j : ℕ) :
    (bot.hp ≤ 0 → ¬ rs 0 < 1/100 → botUpdate rcos rsin rs bot bullets = (bot, bullets)) ∧
    ((es.getD j default).hp ≤ 0 →
      (((bulletsPass rcos rsin keys es bl).1).getD j default).hp
        = (es.getD j default).hp) :=
  ⟨fun h hr => by
     unfold botUpdate
     rw [if_pos h, if_neg hr],
   fun h => bulletsPass_hp_dead rcos rsin keys es bl j h⟩

attribute [local semireducible] Rat.add Rat.mul Rat.sub Rat.inv in
theorem spawn_cell_open : cellAt (gridOf (2 * BLOCK_SIZE)) (gridOf (2 * BLOCK_SIZE)) = some 0 := by
  decide

/-- Claim C6 (amended): every respawn restores hp to the role's maximum
(150 for humans, 100 for bots); the human respawn position
`(2*BLOCK_SIZE, 2*BLOCK_SIZE)` lies in an open cell, while the bot respawn
position is `((r*10+2)*BLOCK_SIZE, (r'*10+2)*BLOCK_SIZE)` for random
`r, r'` and is not checked against the map. -/
theorem respawn_restores_hp (players : PlayersMap) (vid : String) (p : Entity)
    (rcos rsin : ℚ → ℚ) (rs : ℕ → ℚ) (bot : Entity) (bullets : List Bullet)
    (hlook : players.lookup vid = some p)
    (hdead : bot.hp ≤ 0) (hroll : rs 0 < 1/100) :
    ((respawnHuman players vid).lookup vid
        = some { p with hp := 150, x := 2 * BLOCK_SIZE, y := 2 * BLOCK_SIZE }) ∧
    cellAt (gridOf (2 * BLOCK_SIZE)) (gridOf (2 * BLOCK_SIZE)) = some 0 ∧
    botUpdate rcos rsin rs bot bullets
      = ({ bot with hp := 100, x := (rs 1 * 10 + 2) * BLOCK_SIZE,
                    y := (rs 2 * 10 + 2) * BLOCK_SIZE }, bullets) := by
  refine ⟨?_, spawn_cell_open, ?_⟩
  · unfold respawnHuman
    rw [if_pos (by rw [hlook]; rfl)]
    rw [updateP_lookup_self, hlook]
    rfl
  · unfold botUpdate
    rw [if_pos hdead, if_pos hroll]

/-- Claim C7 (amended): a killing hit increments the victim's death
counter by one in memory; when the owner id is not bot-prefixed and is
present in the player map, that player's in-memory kill counter is
incremented by one; the persisted user-record store is not touched by the
game loop (it is only flushed on disconnect). -/
theorem kill_updates_in_memory_counters_only (rcos rsin : ℚ → ℚ) (keys : List String)
    (es : List Entity) (b0 : Bullet) (i j : ℕ)
    (hrem : bulletRemovedByWorld (bulletMove rcos rsin b0) = false)
    (hfind : findFirst (hitCond (bulletMove rcos rsin b0).owner (bulletMove rcos rsin b0).x
        (bulletMove rcos rsin b0).y) es = some i)
    (hlethal : (es.getD i default).hp - b0.damage ≤ 0)
    (hhuman : strStartsWith b0.owner "bot" = false)
    (hkey : findFirst (fun k => k == b0.owner) keys = some j)
    (hj : j < es.length) :
    ((bulletStep rcos rsin keys es b0).entities.getD i default).deaths
      = (es.getD i default).deaths + 1 ∧
    ((bulletStep rcos rsin keys es b0).entities.getD j default).kills
      = (es.getD j default).kills + 1 ∧
    ∀ rss room db, (tickRoomDb rcos rsin rss room db).1.2 = db := by
  have hi := findFirst_some_lt _ es i hfind
  have hstep : (bulletStep rcos rsin keys es b0).entities
      = (killerUpdate (bulletMove rcos rsin b0).owner keys
          (modifyIdx (fun _ => { es.getD i default with
              hp := (es.getD i default).hp - (bulletMove rcos rsin b0).damage,
              deaths := (es.getD i default).deaths + 1 }) i es)).2 := by
    simp only [bulletStep, hrem, Bool.false_eq_true, if_false, hfind]
    exact damageAt_lethal_entities (bulletMove rcos rsin b0) keys es i hlethal
  refine ⟨?_, ?_, fun _ _ _ => rfl⟩
  · rw [hstep, killerUpdate_getD_proj Entity.deaths (fun _ => rfl)]
    rw [modifyIdx_getD, if_pos ⟨rfl, hi⟩]
  · rw [hstep, killerUpdate_getD_kills_hit (bulletMove rcos rsin b0).owner keys
        (modifyIdx (fun _ => { es.getD i default with
            hp := (es.getD i default).hp - (bulletMove rcos rsin b0).damage,
            deaths := (es.getD i default).deaths + 1 }) i es) j hhuman hkey
        (by rw [modifyIdx_length]; exact hj)]
    rw [modifyIdx_const_proj Entity.kills es i
        { es.getD i default with
            hp := (es.getD i default).hp - (bulletMove rcos rsin b0).damage,
            deaths := (es.getD i default).deaths + 1 } rfl j]

/-- Claim C10 (amended): when a killing projectile's owner id matches no
entity in the room and no player-map key, no kill counter is incremented,
and the death notification for a human victim names the killer
`"Unknown"` when the owner id does not start with `"bot"`, but `"NPC"`
when it starts with `"bot"` without matching any bot. -/
theorem unmatched_owner_attribution (rcos rsin : ℚ → ℚ) (keys : List String)
    (es : List Entity) (b0 : Bullet) (i : ℕ)
    (hrem : bulletRemovedByWorld (bulletMove rcos rsin b0) = false)
    (hfind : findFirst (hitCond (bulletMove rcos rsin b0).owner (bulletMove rcos rsin b0).x
        (bulletMove rcos rsin b0).y) es = some i)
    (hlethal : (es.getD i default).hp - b0.damage ≤ 0)
    (hnoent : ∀ e ∈ es, e.id ≠ b0.owner)
    (hnokey : findFirst (fun k => k == b0.owner) keys = none) :
    (∀ j, ((bulletStep rcos rsin keys es b0).entities.getD j default).kills
        = (es.getD j default).kills) ∧
    ((es.getD i default).isBot = false →
      (bulletStep rcos rsin keys es b0).events
        = [⟨(es.getD i default).id,
            if strStartsWith b0.owner "bot" then "NPC" else "Unknown"⟩]) := by
  have hi := findFirst_some_lt _ es i hfind
  have hku := killerUpdate_unmatched (bulletMove rcos rsin b0).owner keys
      (modifyIdx (fun _ => { es.getD i default with
          hp := (es.getD i default).hp - (bulletMove rcos rsin b0).damage,
          deaths := (es.getD i default).deaths + 1 }) i es)
      (drop_find?_id_none es i _ keys.length (bulletMove rcos rsin b0).owner rfl hi hnoent)
      hnokey
  constructor
  · intro j
    have hstep : (bulletStep rcos rsin keys es b0).entities
        = (killerUpdate (bulletMove rcos rsin b0).owner keys
            (modifyIdx (fun _ => { es.getD i default with
                hp := (es.getD i default).hp - (bulletMove rcos rsin b0).damage,
                deaths := (es.getD i default).deaths + 1 }) i es)).2 := by
      simp only [bulletStep, hrem, Bool.false_eq_true, if_false, hfind]
      exact damageAt_lethal_entities (bulletMove rcos rsin b0) keys es i hlethal
    rw [hstep, hku]
    rw [modifyIdx_const_proj Entity.kills es i
        { es.getD i default with
            hp := (es.getD i default).hp - (bulletMove rcos rsin b0).damage,
            deaths := (es.getD i default).deaths + 1 } rfl j]
  · intro hbot
    have hev : (bulletStep rcos rsin keys es b0).events
        = (damageAt (bulletMove rcos rsin b0) keys es i).2 := by
      simp only [bulletStep, hrem, Bool.false_eq_true, if_false, hfind]
    rw [hev, damageAt_lethal_events (bulletMove rcos rsin b0) keys es i hlethal, hku,
        if_neg (by simpa using hbot)]
    rfl

/-! ### Witnesses and counterexamples

The scenarios below instantiate the claim theorems at concrete inputs, or
exhibit concrete runs of the embedded code.  The `semireducible` attribute
lets `decide` evaluate the rational arithmetic of Batteries, whose
operations are `irreducible` by default.
-/

section

attribute [local semireducible] Rat.add Rat.mul Rat.sub Rat.inv

/-- Witness for C1: a bullet owned by `"p9"` reaches the bot `"e1"`
(distance 2 < 30), which loses exactly the bullet's damage. -/
theorem bullet_resolution_witness :
    bulletRemovedByWorld (bulletMove (fun _ => 0) (fun _ => 0)
        ⟨128, 128, 0, "p9", 20, 60, 10⟩) = false ∧
    findFirst (hitCond (bulletMove (fun _ => 0) (fun _ => 0)
        ⟨128, 128, 0, "p9", 20, 60, 10⟩).owner
        (bulletMove (fun _ => 0) (fun _ => 0) ⟨128, 128, 0, "p9", 20, 60, 10⟩).x
        (bulletMove (fun _ => 0) (fun _ => 0) ⟨128, 128, 0, "p9", 20, 60, 10⟩).y)
        [⟨"e1", "bob", 130, 128, 0, 100, 0, 0, true, 0⟩] = some 0 ∧
    (bulletStep (fun _ => 0) (fun _ => 0) []
        [⟨"e1", "bob", 130, 128, 0, 100, 0, 0, true, 0⟩]
        ⟨128, 128, 0, "p9", 20, 60, 10⟩).survivor = none ∧
    ((bulletStep (fun _ => 0) (fun _ => 0) []
        [⟨"e1", "bob", 130, 128, 0, 100, 0, 0, true, 0⟩]
        ⟨128, 128, 0, "p9", 20, 60, 10⟩).entities.getD 0 default).hp
      = ([(⟨"e1", "bob", 130, 128, 0, 100, 0, 0, true, 0⟩ : Entity)].getD 0 default).hp
          - (⟨128, 128, 0, "p9", 20, 60, 10⟩ : Bullet).damage := by
  have h := (bullet_removal_priority_and_single_hit (fun _ => 0) (fun _ => 0) []
      [⟨"e1", "bob", 130, 128, 0, 100, 0, 0, true, 0⟩]
      ⟨128, 128, 0, "p9", 20, 60, 10⟩).2.2 (by decide)
  have h2 := h.2 0 (by decide)
  exact ⟨by decide, by decide, h2.1, h2.2.1⟩

/-- Counterexample for C1 as frozen: a projectile whose new position has
an in-bounds row but an out-of-bounds column (`cellAt = none`, x = 1550
beyond the 24-column map) is NOT removed by the world check and still
damages an entity, contradicting "removed without damaging any entity"
for out-of-bounds cells. -/
theorem bullet_oob_column_damages :
    cellAt (gridOf (96 : ℚ)) (gridOf (1550 : ℚ)) = none ∧
    (bulletMove (fun _ => 1) (fun _ => 0) ⟨1530, 96, 0, "p9", 20, 10, 10⟩).x = 1550 ∧
    (bulletMove (fun _ => 1) (fun _ => 0) ⟨1530, 96, 0, "p9", 20, 10, 10⟩).y = 96 ∧
    (bulletMove (fun _ => 1) (fun _ => 0) ⟨1530, 96, 0, "p9", 20, 10, 10⟩).life = 9 ∧
    (bulletStep (fun _ => 1) (fun _ => 0) []
        [⟨"e1", "alice", 1545, 96, 0, 100, 0, 0, false, 0⟩]
        ⟨1530, 96, 0, "p9", 20, 10, 10⟩).entities
      = [⟨"e1", "alice", 1545, 96, 0, 90, 0, 0, false, 0⟩] :=
  ⟨by decide, by decide, by decide, by decide, by decide⟩

/-- Witness for C2 at concrete dead entities. -/
theorem dead_entities_inert_witness :
    applyInput (fun _ => 1) (fun _ => 0)
        ⟨"p1", "alice", 128, 128, 0, 0, 0, 0, false, 0⟩ ⟨true, false, 0⟩
      = ⟨"p1", "alice", 128, 128, 0, 0, 0, 0, false, 0⟩ ∧
    fire ⟨"p1", "alice", 128, 128, 0, 0, 0, 0, false, 0⟩ [] = [] ∧
    botUpdate (fun _ => 1) (fun _ => 0) (fun _ => 1/2)
        ⟨"bot_server_0", "[BOT] NPC-1", 128, 128, 0, -20, 0, 0, true, 3⟩ []
      = (⟨"bot_server_0", "[BOT] NPC-1", 128, 128, 0, -20, 0, 0, true, 3⟩, []) ∧
    ((bulletStep (fun _ => 1) (fun _ => 0) []
        [⟨"e1", "bob", 128, 128, 0, -5, 0, 0, true, 0⟩]
        ⟨100, 128, 0, "p9", 20, 50, 10⟩).entities.getD 0 default).hp
      = ([(⟨"e1", "bob", 128, 128, 0, -5, 0, 0, true, 0⟩ : Entity)].getD 0 default).hp := by
  have h := dead_entities_inert (fun _ => 1) (fun _ => 0)
      ⟨"p1", "alice", 128, 128, 0, 0, 0, 0, false, 0⟩ ⟨true, false, 0⟩
      [] (fun _ => 1/2) ⟨"bot_server_0", "[BOT] NPC-1", 128, 128, 0, -20, 0, 0, true, 3⟩
      [] [⟨"e1", "bob", 128, 128, 0, -5, 0, 0, true, 0⟩] ⟨100, 128, 0, "p9", 20, 50, 10⟩ 0
  exact ⟨h.1 (by decide), h.2.1 (by decide), h.2.2.1 (by decide) (by decide),
         h.2.2.2 (by decide)⟩

/-- Witness for C3 at a concrete living player: moving forward from
(128, 128) with cos = 1, sin = 0 lands in the open cell (2, 2) and
commits. -/
theorem input_commits_witness :
    applyInput (fun _ => 1) (fun _ => 0)
        ⟨"p1", "alice", 128, 128, 0, 150, 0, 0, false, 0⟩ ⟨true, false, 0⟩
      = { (⟨"p1", "alice", 128, 128, 0, 150, 0, 0, false, 0⟩ : Entity) with
          angle := 0,
          x := 128 + inputDx (fun _ => 1) ⟨true, false, 0⟩,
          y := 128 + inputDy (fun _ => 0) ⟨true, false, 0⟩ } :=
  (input_commits_only_into_open_cells (fun _ => 1) (fun _ => 0)
      ⟨"p1", "alice", 128, 128, 0, 150, 0, 0, false, 0⟩ ⟨true, false, 0⟩
      (by decide)).1 (by decide)

/-- Witness for C4: the owner stands exactly at its own bullet's position
(distance 0) and is untouched. -/
theorem owner_never_damaged_witness :
    ((bulletStep (fun _ => 0) (fun _ => 0) []
        [⟨"p1", "alice", 128, 128, 0, 150, 0, 0, false, 0⟩]
        ⟨128, 128, 0, "p1", 20, 50, 10⟩).entities.getD 0 default).hp
      = ([(⟨"p1", "alice", 128, 128, 0, 150, 0, 0, false, 0⟩ : Entity)].getD 0 default).hp :=
  owner_never_damaged_by_own_bullet (fun _ => 0) (fun _ => 0) []
    [⟨"p1", "alice", 128, 128, 0, 150, 0, 0, false, 0⟩]
    ⟨128, 128, 0, "p1", 20, 50, 10⟩ 0 (by decide)

/-- Witness for C5 at a concrete dead bot and a dead entity under a
non-empty bullet list. -/
theorem negative_hp_persists_witness :
    botUpdate (fun _ => 0) (fun _ => 0) (fun _ => 1/2)
        ⟨"bot_server_0", "[BOT] NPC-1", 128, 128, 0, -20, 0, 0, true, 3⟩ []
      = (⟨"bot_server_0", "[BOT] NPC-1", 128, 128, 0, -20, 0, 0, true, 3⟩, []) ∧
    (((bulletsPass (fun _ => 0) (fun _ => 0) []
        [⟨"e1", "bob", 128, 128, 0, -20, 0, 0, true, 0⟩]
        [⟨128, 128, 0, "p9", 20, 60, 10⟩]).1).getD 0 default).hp
      = ([(⟨"e1", "bob", 128, 128, 0, -20, 0, 0, true, 0⟩ : Entity)].getD 0 default).hp := by
  have h := negative_hp_persists (fun _ => 0) (fun _ => 0) (fun _ => 1/2)
      ⟨"bot_server_0", "[BOT] NPC-1", 128, 128, 0, -20, 0, 0, true, 3⟩ [] []
      [⟨"e1", "bob", 128, 128, 0, -20, 0, 0, true, 0⟩] [⟨128, 128, 0, "p9", 20, 60, 10⟩] 0
  exact ⟨h.1 (by decide) (by decide), h.2 (by decide)⟩

/-- Counterexample for C5 as frozen: a bot at hp 10 is hit for 30 and ends
the killing tick at hp -20; the NEXT tick's broadcast snapshot still shows
hp -20 (the respawn roll 1/2 ≥ 0.01 fails), so a negative hp survives
beyond the killing tick's snapshot. -/
theorem negative_hp_two_snapshots :
    ((tickRoom (fun _ => 0) (fun _ => 0) (fun _ _ => 1/2)
        ⟨[], [⟨"bot_server_0", "[BOT] NPC-1", 130, 128, 0, 10, 0, 0, true, 5⟩],
         [⟨128, 128, 0, "p1", 20, 60, 30⟩]⟩).1.bots.map Entity.hp = [-20]) ∧
    ((tickRoom (fun _ => 0) (fun _ => 0) (fun _ _ => 1/2)
        (tickRoom (fun _ => 0) (fun _ => 0) (fun _ _ => 1/2)
          ⟨[], [⟨"bot_server_0", "[BOT] NPC-1", 130, 128, 0, 10, 0, 0, true, 5⟩],
           [⟨128, 128, 0, "p1", 20, 60, 30⟩]⟩).1).1.bots.map Entity.hp = [-20]) :=
  ⟨by decide, by decide⟩

/-- Witness for C6: a concrete human respawn and a concrete successful bot
respawn roll. -/
theorem respawn_restores_hp_witness :
    ((respawnHuman [("s1", ⟨"s1", "alice", 700, 500, 0, -10, 0, 1, false, 0⟩)] "s1").lookup "s1"
      = some { (⟨"s1", "alice", 700, 500, 0, -10, 0, 1, false, 0⟩ : Entity) with
               hp := 150, x := 2 * BLOCK_SIZE, y := 2 * BLOCK_SIZE }) ∧
    cellAt (gridOf (2 * BLOCK_SIZE)) (gridOf (2 * BLOCK_SIZE)) = some 0 ∧
    botUpdate (fun _ => 0) (fun _ => 0) (fun k => if k = 0 then 0 else 1/5)
        ⟨"bot_server_0", "[BOT] NPC-1", 128, 128, 0, 0, 0, 0, true, 0⟩ []
      = ({ (⟨"bot_server_0", "[BOT] NPC-1", 128, 128, 0, 0, 0, 0, true, 0⟩ : Entity) with
           hp := 100,
           x := ((fun k : ℕ => if k = 0 then (0:ℚ) else 1/5) 1 * 10 + 2) * BLOCK_SIZE,
           y := ((fun k : ℕ => if k = 0 then (0:ℚ) else 1/5) 2 * 10 + 2) * BLOCK_SIZE }, []) :=
  respawn_restores_hp [("s1", ⟨"s1", "alice", 700, 500, 0, -10, 0, 1, false, 0⟩)] "s1"
    ⟨"s1", "alice", 700, 500, 0, -10, 0, 1, false, 0⟩
    (fun _ => 0) (fun _ => 0) (fun k => if k = 0 then 0 else 1/5)
    ⟨"bot_server_0", "[BOT] NPC-1", 128, 128, 0, 0, 0, 0, true, 0⟩ []
    (by decide) (by decide) (by decide)

/-- Counterexample for C6 as frozen: with respawn randoms 1/5 the bot is
relocated to (256, 256), whose cell (4, 4) is a wall — the respawn
position is not guaranteed to be open. -/
theorem bot_respawn_into_wall :
    (botUpdate (fun _ => 0) (fun _ => 0) (fun k => if k = 0 then 0 else 1/5)
        ⟨"bot_server_0", "[BOT] NPC-1", 128, 128, 0, 0, 0, 0, true, 0⟩ []).1
      = ⟨"bot_server_0", "[BOT] NPC-1", 256, 256, 0, 100, 0, 0, true, 0⟩ ∧
    cellAt (gridOf (256 : ℚ)) (gridOf (256 : ℚ)) = some 1 :=
  ⟨by decide, by decide⟩

/-- Witness for C7: player `"p1"` (2 kills) lethally hits the bot at index
1; the victim's deaths and the killer's in-memory kills increment, and a
tick leaves a concrete store untouched. -/
theorem kill_updates_witness :
    ((bulletStep (fun _ => 0) (fun _ => 0) ["p1"]
        [⟨"p1", "alice", 128, 128, 0, 150, 2, 0, false, 0⟩,
         ⟨"bot_server_0", "[BOT] NPC-1", 130, 128, 0, 10, 0, 0, true, 5⟩]
        ⟨128, 128, 0, "p1", 20, 60, 30⟩).entities.getD 1 default).deaths
      = ([(⟨"p1", "alice", 128, 128, 0, 150, 2, 0, false, 0⟩ : Entity),
          ⟨"bot_server_0", "[BOT] NPC-1", 130, 128, 0, 10, 0, 0, true, 5⟩].getD 1
            default).deaths + 1 ∧
    ((bulletStep (fun _ => 0) (fun _ => 0) ["p1"]
        [⟨"p1", "alice", 128, 128, 0, 150, 2, 0, false, 0⟩,
         ⟨"bot_server_0", "[BOT] NPC-1", 130, 128, 0, 10, 0, 0, true, 5⟩]
        ⟨128, 128, 0, "p1", 20, 60, 30⟩).entities.getD 0 default).kills
      = ([(⟨"p1", "alice", 128, 128, 0, 150, 2, 0, false, 0⟩ : Entity),
          ⟨"bot_server_0", "[BOT] NPC-1", 130, 128, 0, 10, 0, 0, true, 5⟩].getD 0
            default).kills + 1 ∧
    (tickRoomDb (fun _ => 0) (fun _ => 0) (fun _ _ => 1/2) ⟨[], [], []⟩
        [("alice", ⟨"h", 5, 0⟩)]).1.2 = [("alice", ⟨"h", 5, 0⟩)] := by
  have h := kill_updates_in_memory_counters_only (fun _ => 0) (fun _ => 0) ["p1"]
      [⟨"p1", "alice", 128, 128, 0, 150, 2, 0, false, 0⟩,
       ⟨"bot_server_0", "[BOT] NPC-1", 130, 128, 0, 10, 0, 0, true, 5⟩]
      ⟨128, 128, 0, "p1", 20, 60, 30⟩ 1 0
      (by decide) (by decide) (by decide) (by decide) (by decide) (by decide)
  exact ⟨h.1, h.2.1, h.2.2 (fun _ _ => 1/2) ⟨[], [], []⟩ [("alice", ⟨"h", 5, 0⟩)]⟩

/-- Counterexample for C7 as frozen: a full tick in which player `"p1"`
(persisted kills 5) lethally hits a bot: the in-memory kill counter
becomes 6, but the persisted store still reads kills 5 — the store
receives no per-kill increment (it is only written on disconnect). -/
theorem kill_no_store_increment :
    ((tickRoomDb (fun _ => 0) (fun _ => 0) (fun _ _ => 1/2)
        ⟨[("p1", ⟨"p1", "alice", 128, 128, 0, 150, 5, 0, false, 0⟩)],
         [⟨"bot_server_0", "[BOT] NPC-1", 130, 128, 0, 10, 0, 0, true, 5⟩],
         [⟨128, 128, 0, "p1", 20, 60, 30⟩]⟩
        [("alice", ⟨"h", 5, 0⟩)]).1.1.players.map (fun kv => kv.2.kills) = [6]) ∧
    ((tickRoomDb (fun _ => 0) (fun _ => 0) (fun _ _ => 1/2)
        ⟨[("p1", ⟨"p1", "alice", 128, 128, 0, 150, 5, 0, false, 0⟩)],
         [⟨"bot_server_0", "[BOT] NPC-1", 130, 128, 0, 10, 0, 0, true, 5⟩],
         [⟨128, 128, 0, "p1", 20, 60, 30⟩]⟩
        [("alice", ⟨"h", 5, 0⟩)]).1.2 = [("alice", ⟨"h", 5, 0⟩)]) ∧
    (([("alice", (⟨"h", 5, 0⟩ : UserRec))].lookup "alice").map UserRec.kills = some 5) :=
  ⟨by decide, by decide, by decide⟩

/-- Witness for C8 at a concrete one-player state. -/
theorem leave_idempotent_witness :
    leave (leave ⟨[("s1", ⟨"s1", "alice", 128, 128, 0, 150, 4, 2, false, 0⟩)],
                  [("alice", ⟨"h", 1, 1⟩)]⟩ "s1") "s1"
      = leave ⟨[("s1", ⟨"s1", "alice", 128, 128, 0, 150, 4, 2, false, 0⟩)],
               [("alice", ⟨"h", 1, 1⟩)]⟩ "s1" ∧
    leave ⟨[("s1", ⟨"s1", "alice", 128, 128, 0, 150, 4, 2, false, 0⟩)],
           [("alice", ⟨"h", 1, 1⟩)]⟩ "s2"
      = ⟨[("s1", ⟨"s1", "alice", 128, 128, 0, 150, 4, 2, false, 0⟩)],
         [("alice", ⟨"h", 1, 1⟩)]⟩ :=
  ⟨(leave_idempotent ⟨[("s1", ⟨"s1", "alice", 128, 128, 0, 150, 4, 2, false, 0⟩)],
      [("alice", ⟨"h", 1, 1⟩)]⟩ "s1").1,
   (leave_idempotent ⟨[("s1", ⟨"s1", "alice", 128, 128, 0, 150, 4, 2, false, 0⟩)],
      [("alice", ⟨"h", 1, 1⟩)]⟩ "s2").2 (by decide)⟩

/-- Witness for C9 at a concrete living player and bot. -/
theorem projectile_profiles_witness :
    fire ⟨"p1", "alice", 128, 128, 0, 150, 0, 0, false, 0⟩ []
      = [⟨128, 128, 0, "p1", 20, 50, 10⟩] ∧
    (((botUpdate (fun _ => 0) (fun _ => 0) (fun _ => 1/2)
        ⟨"bot_server_0", "[BOT] NPC-1", 130, 128, 0, 100, 0, 0, true, 0⟩ []).2).getD 0
          default).damage = 30 := by
  have h := projectile_profiles_by_role
      ⟨"p1", "alice", 128, 128, 0, 150, 0, 0, false, 0⟩ []
      (fun _ => 0) (fun _ => 0) (fun _ => 1/2)
      ⟨"bot_server_0", "[BOT] NPC-1", 130, 128, 0, 100, 0, 0, true, 0⟩ []
      (by decide) (by decide) (by decide)
  exact ⟨h.1, h.2.2.2.2.1⟩

/-- Witness for C10: owner `"zZ"` (not bot-prefixed, matching nothing)
yields an unchanged kill counter and a `died` event naming `"Unknown"`. -/
theorem unmatched_owner_witness :
    ((bulletStep (fun _ => 0) (fun _ => 0) []
        [⟨"v1", "bob", 130, 128, 0, 10, 0, 0, false, 0⟩]
        ⟨128, 128, 0, "zZ", 20, 60, 30⟩).entities.getD 0 default).kills
      = ([(⟨"v1", "bob", 130, 128, 0, 10, 0, 0, false, 0⟩ : Entity)].getD 0 default).kills ∧
    (bulletStep (fun _ => 0) (fun _ => 0) []
        [⟨"v1", "bob", 130, 128, 0, 10, 0, 0, false, 0⟩]
        ⟨128, 128, 0, "zZ", 20, 60, 30⟩).events
      = [⟨([(⟨"v1", "bob", 130, 128, 0, 10, 0, 0, false, 0⟩ : Entity)].getD 0 default).id,
          if strStartsWith "zZ" "bot" then "NPC" else "Unknown"⟩] := by
  have h := unmatched_owner_attribution (fun _ => 0) (fun _ => 0) []
      [⟨"v1", "bob", 130, 128, 0, 10, 0, 0, false, 0⟩]
      ⟨128, 128, 0, "zZ", 20, 60, 30⟩ 0
      (by decide) (by decide) (by decide) (by decide) (by decide)
  exact ⟨h.1 0, h.2 (by decide)⟩

/-- Counterexample for C10 as frozen: owner `"botZ"` matches no bot and no
player key, yet the human victim's death notification names `"NPC"`, not
`"Unknown"` (and no kill counter changes). -/
theorem bot_prefixed_owner_named_npc :
    (bulletStep (fun _ => 0) (fun _ => 0) ["v1"]
        [⟨"v1", "bob", 130, 128, 0, 10, 0, 0, false, 0⟩]
        ⟨128, 128, 0, "botZ", 20, 60, 30⟩).events = [⟨"v1", "NPC"⟩] ∧
    "NPC" ≠ "Unknown" ∧
    strStartsWith "botZ" "bot" = true ∧
    (bulletStep (fun _ => 0) (fun _ => 0) ["v1"]
        [⟨"v1", "bob", 130, 128, 0, 10, 0, 0, false, 0⟩]
        ⟨128, 128, 0, "botZ", 20, 60, 30⟩).entities.map Entity.kills = [0] :=
  ⟨by decide, by decide, by decide, by decide⟩

end

end PixelWar
